import Mathlib

/-!
# Verification of the score.tpl template-resolution core

Shallow embedding of the template resolution and loading machinery of the
`score.tpl` Python package (files `score/tpl/_init.py` and
`score/tpl/loader.py`), together with theorems settling the behavioural
claims about it.

Conventions of the embedding:

* Python strings are Lean `String`s; where the code searches inside a
  string we work on the underlying `List Char`.
* Python dictionaries that are only iterated / looked up are association
  lists `List (String × _)` in insertion order (CPython dicts preserve
  insertion order).
* Fallible Python code is embedded with `Except PyErr _` / `Option _`;
  the constructors of `PyErr` name the Python exception that is raised.
* Opaque callables (loaders, renderer factories, postprocessors) are
  either record fields holding Lean functions or plain string identifiers
  when only their identity matters.
-/

/-- Python exceptions that the embedded code can raise. -/
inductive PyErr where
  /-- Exception `score.tpl._exc.TemplateNotFound` (the class itself lives in the
  missing file `_exc.py`; it is a plain exception type). -/
  | templateNotFound : PyErr
  /-- Exception `score.init.ConfigurationError` (external collaborator). -/
  | configurationError : PyErr
  /-- Python `AttributeError`. -/
  | attributeError : PyErr
  /-- Python `AssertionError` (a failing `assert` statement). -/
  | assertionError : PyErr
  /-- Python `ValueError`. -/
  | valueError : PyErr
  /-- Python `UnicodeEncodeError` (from `str.encode('ASCII')`). -/
  | unicodeEncodeError : PyErr
deriving DecidableEq, Repr

/-- Python `s.split(sep)` on character lists: `''.split(sep) = ['']`,
separators at the ends produce empty pieces. -/
def splitOnChar (sep : Char) : List Char → List (List Char)
  | [] => [[]]
  | c :: cs =>
    if c = sep then [] :: splitOnChar sep cs
    else
      match splitOnChar sep cs with
      | [] => [[c]]
      | piece :: pieces => (c :: piece) :: pieces

/-- Python `s.split(sep)` producing strings. -/
def pySplit (sep : Char) (s : String) : List String :=
  (splitOnChar sep s.data).map (fun l => ⟨l⟩)

/-- Python `sep.join(parts)` for a one-character separator. -/
def pyJoin (sep : Char) (parts : List String) : String :=
  ⟨((parts.map String.data).intersperse [sep]).flatten⟩

/-- Embeds `os.path.basename` for POSIX paths: everything after the last `/`. -/
def basename (s : String) : String :=
  (pySplit '/' s).getLastD s

/-- Whether the pattern occurs in the haystack starting at index `i`
(index and lengths counted in characters). -/
def occursAt (needle hay : List Char) (i : Nat) : Bool :=
  needle.isPrefixOf (hay.drop i)

/-- Python `hay.rfind(needle)`: the largest index at which `needle` occurs
in `hay`, `none` standing for Python's `-1`. -/
def rfindChar (hay needle : List Char) : Option Nat :=
  ((List.range (hay.length + 1)).filter (occursAt needle hay)).getLast?

/-- The sort key used on renderer-candidates in
`ConfiguredTplModule._find_renderers`: `(idx + len(extension), len(extension))`.
A candidate is the triple (extension, idx, engine id). -/
def candKey (c : String × Nat × String) : Nat × Nat :=
  (c.2.1 + c.1.length, c.1.length)

/-- Strict comparison of candidate keys (lexicographic on the pair). -/
def candLt (a b : String × Nat × String) : Bool :=
  (candKey a).1 < (candKey b).1 ∨
    ((candKey a).1 = (candKey b).1 ∧ (candKey a).2 < (candKey b).2)

/-- Embeds `sorted(candidates, key=..., reverse=True)[0]`: since Python's sort is
stable and `reverse=True` keeps the original order among equal keys, this
is the first candidate with the maximal key.  Embedded as a fold that
replaces the current best only on a strictly larger key. -/
def pickBest (cands : List (String × Nat × String)) :
    Option (String × Nat × String) :=
  cands.foldl
    (fun best c =>
      match best with
      | none => some c
      | some b => if candLt b c then some c else some b)
    none

/-- One full execution of the `while True` loop of
`ConfiguredTplModule._find_renderers`, with explicit fuel (the Python
loop can fail to terminate, e.g. on the filename `.xml` with an `xml`
engine registered, so the embedding returns `none` when fuel runs out).
`engines` is the post-finalize ordered association list `extension ↦
engine id`.  Faithful to the source: the candidate for each engine is the
right-most occurrence of `'.%s' % extension`; the best candidate is taken
by the key `(idx + len(ext), len(ext))`; afterwards the source truncates
with `filename = filename[:len(extension) + 1]`. -/
def findRenderersLoop (engines : List (String × String)) :
    Nat → List Char → Option (List String)
  | 0, _ => none
  | fuel + 1, filename =>
    let candidates := engines.filterMap (fun e =>
      (rfindChar filename ('.' :: e.1.data)).map (fun idx => (e.1, idx, e.2)))
    match pickBest candidates with
    | none => some []
    | some (ext, _idx, engine) =>
      (findRenderersLoop engines fuel (filename.take (ext.length + 1))).map
        (fun rest => engine :: rest)

/-- Embeds `ConfiguredTplModule._find_renderers` (the chain of engine ids, in
application order).  Fuel `|filename| + 2` suffices for every terminating
run of the Python loop, because the filename length never increases and
an iteration that leaves it unchanged repeats forever. -/
def findRenderers (engines : List (String × String)) (path : String) :
    Option (List String) :=
  let filename := (basename path).data
  findRenderersLoop engines (filename.length + 2) filename

/-- Modelled from the spec: the renderer-chain loop as §4.4 describes it —
identical candidate search and selection, but truncating the filename "to
the prefix before that occurrence", i.e. `filename[:idx]`. -/
def findRenderersLoopSpec (engines : List (String × String)) :
    Nat → List Char → Option (List String)
  | 0, _ => none
  | fuel + 1, filename =>
    let candidates := engines.filterMap (fun e =>
      (rfindChar filename ('.' :: e.1.data)).map (fun idx => (e.1, idx, e.2)))
    match pickBest candidates with
    | none => some []
    | some (_ext, idx, engine) =>
      (findRenderersLoopSpec engines fuel (filename.take idx)).map
        (fun rest => engine :: rest)

/-- Modelled from the spec: `_find_renderers` with the spec's truncation. -/
def findRenderersSpec (engines : List (String × String)) (path : String) :
    Option (List String) :=
  let filename := (basename path).data
  findRenderersLoopSpec engines (filename.length + 2) filename

/-- Embeds `VariableDefinition = namedtuple('VariableDefinition', ('name', 'value',
'escape'))`; values are opaque, kept as string identifiers. -/
structure VariableDefinition where
  name : String
  value : String
  escape : Bool
deriving DecidableEq, Repr

/-- Embeds `score.tpl._init.FileType`.  `finalized` is the private `__finalized`
flag set by `FileType._finalize`; since that method also converts the
`extensions`/`postprocessors`/`globals` lists to tuples, the flag doubles
as "the lists are now tuples".  Postprocessors and the escape callback are
opaque callables, kept as string identifiers. -/
structure FileType where
  mimetype : String
  extensions : List String
  postprocessors : List String
  globals : List VariableDefinition
  finalized : Bool
  escape : Option String
deriving DecidableEq, Repr

/-- Embeds `FileType.__init__` (as created by `FileTypes.__missing__`). -/
def FileType.new (mimetype : String) : FileType :=
  ⟨mimetype, [], [], [], false, none⟩

/-- Embeds `FileType._finalize`: freeze the lists and set the flag. -/
def FileType.runFinalize (ft : FileType) : FileType :=
  { ft with finalized := true }

/-- Embeds `filetype.extensions.append(x)`: in-place list mutation.  It fails
(with `AttributeError: 'tuple' object has no attribute 'append'`) exactly
when `FileType._finalize` has already turned the list into a tuple; the
`extensions` property setter with its `assert` is not involved. -/
def FileType.appendExtension (ft : FileType) (x : String) :
    Except PyErr FileType :=
  if ft.finalized then .error .attributeError
  else .ok { ft with extensions := ft.extensions ++ [x] }

/-- Embeds `filetype.postprocessors.append(p)`, same mechanics as
`FileType.appendExtension`. -/
def FileType.appendPostprocessor (ft : FileType) (p : String) :
    Except PyErr FileType :=
  if ft.finalized then .error .attributeError
  else .ok { ft with postprocessors := ft.postprocessors ++ [p] }

/-- The `escape` property setter: `assert not self.__finalized`. -/
def FileType.setEscape (ft : FileType) (callback : String) :
    Except PyErr FileType :=
  if ft.finalized then .error .assertionError
  else .ok { ft with escape := some callback }

/-- Embeds `FileType.add_global`: asserts the not-finalized flag and per-name
uniqueness, then appends a `VariableDefinition`. -/
def FileType.addGlobal (ft : FileType) (name value : String) (escape : Bool) :
    Except PyErr FileType :=
  if ft.finalized then .error .assertionError
  else if ft.globals.any (fun g => g.name = name) then .error .assertionError
  else .ok { ft with globals := ft.globals ++ [⟨name, value, escape⟩] }

/-- The mutable state of a `ConfiguredTplModule`: the `FileTypes`,
`Loaders` and `Engines` dictionaries in insertion order (loader lists hold
opaque loader identifiers).  `enginesGuarded` records whether
`self.engines` is still the guarded `Engines` dict; `_finalize` replaces
it with a plain `OrderedDict`. -/
structure TplState where
  rootdirs : List String
  filetypes : List FileType
  loaders : List (String × List String)
  engines : List (String × String)
  enginesGuarded : Bool
deriving DecidableEq, Repr

/-- Embeds `Engines.__setitem__` while the dict is still an `Engines` instance
(duplicate key or a `/` in the key raises `ValueError`); after `_finalize`
has substituted a plain `OrderedDict`, item assignment is unchecked. -/
def enginesSetItem (st : TplState) (key engine : String) :
    Except PyErr TplState :=
  if st.enginesGuarded then
    if (st.engines.lookup key).isSome then .error .valueError
    else if key.data.contains '/' then .error .valueError
    else .ok { st with engines := st.engines ++ [(key, engine)] }
  else
    if (st.engines.lookup key).isSome then
      .ok { st with engines :=
        st.engines.map (fun e => if e.1 = key then (key, engine) else e) }
    else .ok { st with engines := st.engines ++ [(key, engine)] }

/-- Embeds `Loaders.__missing__`: reject keys containing `/`, otherwise create a
fresh list holding one `FileSystemLoader` when root directories are
configured (identified here as `fs:<key>`). -/
def loadersMissing (rootdirs : List String) (key : String) :
    Except PyErr (List String) :=
  if key.data.contains '/' then .error .valueError
  else .ok (if rootdirs.isEmpty then [] else ["fs:" ++ key])

/-- The first loop of `ConfiguredTplModule._finalize`: fold the
`all_extensions` set (kept as a duplicate-free list in discovery order;
only membership and the later length sort matter) over the filetypes.  On
a duplicate the source attempts to build the `ConfigurationError` message
with `[f for f in self.filetypes if extension in f.extensions.extensions]`;
iterating the dict yields the mimetype *strings* and `str` has no
attribute `extensions`, so that list comprehension raises `AttributeError`
before the `raise ConfigurationError(...)` statement is reached. -/
def collectExtensions : List FileType → List String → Except PyErr (List String)
  | [], all => .ok all
  | ft :: fts, all =>
    let duplicates := all.filter (fun e => ft.extensions.contains e)
    if duplicates.isEmpty then
      collectExtensions fts
        (all ++ ft.extensions.filter (fun e => ¬ all.contains e))
    else .error .attributeError

/-- Stable insertion of a string into a list sorted by descending length
(mirrors the effect of Python's stable `sorted(key=len, reverse=True)`). -/
def insertDescLen (x : String) : List String → List String
  | [] => [x]
  | y :: ys =>
    if x.length ≤ y.length then y :: insertDescLen x ys else x :: y :: ys

/-- Embeds `sorted(keys, key=len, reverse=True)` (stable, descending length). -/
def sortDescLen : List String → List String
  | [] => []
  | x :: xs => insertDescLen x (sortDescLen xs)

/-- Embeds `ConfiguredTplModule._finalize`: duplicate-extension check, the
loader-key and engine-key subset checks, then re-keying of `self.loaders`
(over *all* filetype extensions — `self.loaders[ext]` triggers
`Loaders.__missing__` for extensions without a loader entry) and of
`self.engines` by descending key length.  Note what the source does *not*
do: it never calls `FileType._finalize` on any filetype (no caller of that
method exists in the package), and the re-built `self.engines` is a plain
`OrderedDict`, no longer the guarded `Engines` dict. -/
def tplFinalize (st : TplState) : Except PyErr TplState := do
  let all ← collectExtensions st.filetypes []
  if st.loaders.any (fun kv => ¬ all.contains kv.1) then
    throw .configurationError
  else if st.engines.any (fun kv => ¬ all.contains kv.1) then
    throw .configurationError
  else
    let loaderPairs ← (sortDescLen all).mapM (fun ext =>
      match st.loaders.lookup ext with
      | some ls => pure (ext, ls)
      | none => do
        let ls ← loadersMissing st.rootdirs ext
        pure (ext, ls))
    let enginePairs := (sortDescLen (st.engines.map Prod.fst)).map
      (fun ext => (ext, ((st.engines.lookup ext).getD "")))
    .ok { st with loaders := loaderPairs, engines := enginePairs,
                  enginesGuarded := false }

/-- The dot-separated components of the basename after the stem:
`os.path.basename(path).split('.')[1:]`. -/
def extComponents (path : String) : List String :=
  (pySplit '.' (basename path)).drop 1

/-- The inner loop body of `ConfiguredTplModule._find_filetype`: for the
descending counter `i` (Python's `range(len(extensions), 0, -1)`), join
the first `i` components and return the first filetype whose extension
set contains the joined string. -/
def findFiletypeAux (fts : List FileType) (exts : List String) :
    Nat → Option FileType
  | 0 => none
  | i + 1 =>
    match fts.find? (fun f =>
        f.extensions.contains (pyJoin '.' (exts.take (i + 1)))) with
    | some f => some f
    | none => findFiletypeAux fts exts i

/-- Embeds `ConfiguredTplModule._find_filetype`; `none` is the raised
`TemplateNotFound`. -/
def findFiletype (fts : List FileType) (path : String) : Option FileType :=
  findFiletypeAux fts (extComponents path) (extComponents path).length

/-- The result of `Loader.load`: the Python pair `(True, location)` for a
file reference or `(False, contents)` for inline content (the documented
`str` shape). -/
inductive LoadResult where
  | file (location : String)
  | inline (contents : String)
deriving DecidableEq, Repr

/-- A loader object, by its behaviour: the three methods the resolution
core calls.  `hashImpl` is the loader's own (possibly overridden) `hash`
method. -/
structure Loader where
  load : String → Except PyErr LoadResult
  hashImpl : String → Except PyErr String
  isValid : String → Bool

/-- Whether a string is a registered loader key (`parts[1] in self.loaders`;
`in` never triggers `Loaders.__missing__`). -/
def isLoaderKey (loaders : List (String × List Loader)) (k : String) : Bool :=
  (loaders.lookup k).isSome

/-- The `while '.' in parts[1]` loop of `ConfiguredTplModule._find_loader`
on the components of the current rest (one fold step drops the first
component, exactly Python's `parts[1].split('.', maxsplit=1)`); the
`while`'s `else` (no `break` happened) is `none`, the raised
`TemplateNotFound`. -/
def whileFoldKey (loaders : List (String × List Loader)) :
    List String → Option String
  | [] => none
  | [_] => none
  | _ :: c :: cs =>
    let r := pyJoin '.' (c :: cs)
    if isLoaderKey loaders r then some r
    else whileFoldKey loaders (c :: cs)

/-- The joins of the non-empty suffixes of a component list, longest
first: the sequence of candidate loader keys that the folding loop of
`_find_loader` would test after its first candidate. -/
def suffixJoins : List String → List String
  | [] => []
  | c :: cs => pyJoin '.' (c :: cs) :: suffixJoins cs

/-- Embeds `ConfiguredTplModule._find_loader`: split the basename at the first
dot, fold components back into the stem until a registered loader key
matches, then return the first loader of that key's list for which
`is_valid(path)` holds. -/
def findLoader (loaders : List (String × List Loader)) (path : String) :
    Except PyErr Loader :=
  match pySplit '.' (basename path) with
  | [] => .error .templateNotFound
  | [_] => .error .templateNotFound
  | _stem :: restComps =>
    let rest := pyJoin '.' restComps
    let key? := if isLoaderKey loaders rest then some rest
                else whileFoldKey loaders restComps
    match key? with
    | none => .error .templateNotFound
    | some k =>
      match ((loaders.lookup k).getD []).find? (fun l => l.isValid path) with
      | some l => .ok l
      | none => .error .templateNotFound

/-- Embeds `ChainLoader.load`: first child success wins; only `TemplateNotFound`
is caught, other exceptions propagate; an exhausted chain raises
`TemplateNotFound`. -/
def chainLoad (loaders : List Loader) (path : String) :
    Except PyErr LoadResult :=
  match loaders with
  | [] => .error .templateNotFound
  | l :: ls =>
    match l.load path with
    | .ok r => .ok r
    | .error .templateNotFound => chainLoad ls path
    | .error e => .error e

/-- Embeds `ChainLoader.hash`: the same fallback loop, but the method body ends
after the loop without a `raise`, so an exhausted chain returns Python
`None` — embedded as `.ok none`. -/
def chainHash (loaders : List Loader) (path : String) :
    Except PyErr (Option String) :=
  match loaders with
  | [] => .ok none
  | l :: ls =>
    match l.hashImpl path with
    | .ok t => .ok (some t)
    | .error .templateNotFound => chainHash ls path
    | .error e => .error e

/-- Embeds `str.encode('ASCII')`: byte values of the characters, failing with
`UnicodeEncodeError` on any non-ASCII character. -/
def encodeASCII (s : String) : Option (List Nat) :=
  if s.data.all (fun c => c.toNat < 128) then some (s.data.map Char.toNat)
  else none

/-- The default `Loader.hash`: load, then digest the file's bytes (the
chunked `xxhash.xxh64` updates digest the whole byte string, `digest`
here; `FileNotFoundError` on open becomes `TemplateNotFound`) for a file
reference, or the ASCII-encoded bytes of the inline `str` contents
otherwise.  `fsBytes` models the byte contents of the file system. -/
def defaultHash (fsBytes : String → Option (List Nat))
    (digest : List Nat → String) (load : String → Except PyErr LoadResult)
    (path : String) : Except PyErr String :=
  match load path with
  | .error e => .error e
  | .ok (.file location) =>
    match fsBytes location with
    | some b => .ok (digest b)
    | none => .error .templateNotFound
  | .ok (.inline contents) =>
    match encodeASCII contents with
    | some b => .ok (digest b)
    | none => .error .unicodeEncodeError

/-- The bytes that `Loader.hash` would feed into the digest (same control
flow as `defaultHash`, stopping before digesting). -/
def contentBytes (fsBytes : String → Option (List Nat))
    (load : String → Except PyErr LoadResult) (path : String) :
    Except PyErr (List Nat) :=
  match load path with
  | .error e => .error e
  | .ok (.file location) =>
    match fsBytes location with
    | some b => .ok b
    | none => .error .templateNotFound
  | .ok (.inline contents) =>
    match encodeASCII contents with
    | some b => .ok b
    | none => .error .unicodeEncodeError

/-- Embeds `path.lstrip('/')`. -/
def stripSlashes (s : String) : String :=
  ⟨s.data.dropWhile (fun c => c = '/')⟩

/-- The `/`-separated pieces of a path string. -/
def pathParts (s : String) : List String :=
  pySplit '/' s

/-- Embeds `os.path.normpath` on an absolute path, as component processing:
empty pieces and `.` vanish, `..` removes the previous component (`..` at
the root stays at the root). -/
def normAbs (parts : List String) : List String :=
  parts.foldl
    (fun acc c =>
      if c = "" ∨ c = "." then acc
      else if c = ".." then acc.dropLast
      else acc ++ [c])
    []

/-- Length of the longest common leading run of two component lists. -/
def sharedLeadLen : List String → List String → Nat
  | a :: as, b :: bs => if a = b then sharedLeadLen as bs + 1 else 0
  | _, _ => 0

/-- Embeds `os.path.relpath(full, start)` as components: normalize both, drop the
common lead, go up once per remaining `start` component. -/
def relpathParts (full start : List String) : List String :=
  let f := normAbs full
  let s := normAbs start
  let k := sharedLeadLen f s
  List.replicate (s.length - k) ".." ++ f.drop k

/-- Embeds `relpath.startswith(os.pardir + os.sep)` on the joined string: true
iff the first component is `..` and another component follows (a bare
`..` does *not* start with `../`). -/
def startsWithPardirSep (parts : List String) : Bool :=
  match parts with
  | ".." :: _ :: _ => true
  | _ => false

/-- Embeds `FileSystemLoader._find_file`: per root directory, build
`os.path.join(rootdir, path.lstrip('/'))`, skip the root when the
relative path starts with `../`, otherwise serve the full path if it
exists.  `fsx` models `os.path.exists`, consulted on the resolved
(normalized) path — a symlink-free file system. -/
def findFile (fsx : List String → Bool) (rootdirs : List String)
    (path : String) : Option (List String) :=
  match rootdirs with
  | [] => none
  | r :: rs =>
    let full := pathParts r ++ pathParts (stripSlashes path)
    if startsWithPardirSep (relpathParts full (pathParts r)) then
      findFile fsx rs path
    else if fsx (normAbs full) then some full
    else findFile fsx rs path

/-- Embeds `FileSystemLoader.load`: a found file is returned as a reference pair,
else `TemplateNotFound`. -/
def fsLoad (fsx : List String → Bool) (rootdirs : List String)
    (path : String) : Except PyErr (Bool × List String) :=
  match findFile fsx rootdirs path with
  | some full => .ok (true, full)
  | none => .error .templateNotFound

/-- Embeds `FileSystemLoader.is_valid`: `bool(self._find_file(path))`. -/
def fsIsValid (fsx : List String → Bool) (rootdirs : List String)
    (path : String) : Bool :=
  (findFile fsx rootdirs path).isSome

/-- The suffix test of `FileSystemLoader.iter_paths`:
`filename[-extlen:] == ext` with `ext = '.' + extension`. -/
def extMatches (extension : String) (filename : String) : Bool :=
  ('.' :: extension.data).isSuffixOf filename.data

/-- The `found` bookkeeping of `FileSystemLoader.iter_paths`: emit each
candidate path unless it was already seen, appending new ones to `found`. -/
def dedupFirst : List String → List String → List String
  | [], _ => []
  | p :: ps, found =>
    if found.contains p then dedupFirst ps found
    else p :: dedupFirst ps (found ++ [p])

/-- The stream of candidate relative paths that
`FileSystemLoader.iter_paths` considers, before the `found` bookkeeping:
per root directory in order, the suffix-matching files of its walk.
`walks` holds, per root directory in order, the `(base, filename)` pairs
produced by `os.walk` with `base` already converted as in the source
(`''` for the root itself, otherwise the relative directory followed by
`/`). -/
def iterCandidates (walks : List (List (String × String)))
    (extension : String) : List String :=
  walks.flatMap (fun entries =>
    (entries.filter (fun e => extMatches extension e.2)).map
      (fun e => e.1 ++ e.2))

/-- Embeds `FileSystemLoader.iter_paths`: the candidate stream with the `found`
deduplication applied. -/
def fsIterPaths (walks : List (List (String × String))) (extension : String) :
    List String :=
  dedupFirst (iterCandidates walks extension) []

/-- Environment for `ConfiguredTplModule.render`: the registries plus the
behaviour of the external collaborators (renderer instances per engine id,
`open(result).read()`, and the postprocessor callables by id). -/
structure RenderEnv where
  filetypes : List FileType
  loaders : List (String × List Loader)
  engines : List (String × String)
  renderFileF : String → String → String → String
  renderStringF : String → String → String → String
  readFile : String → String
  postproc : String → String → String

/-- The renderer loop of `ConfiguredTplModule.render`: the first renderer
may consume a file reference via `render_file`, every later one gets a
string via `render_string`. -/
def applyChain (env : RenderEnv) (path : String) :
    List String → Bool → String → Bool × String
  | [], isFile, result => (isFile, result)
  | r :: rs, isFile, result =>
    if isFile then
      applyChain env path rs false (env.renderFileF r result path)
    else
      applyChain env path rs false (env.renderStringF r result path)

/-- Embeds `ConfiguredTplModule.render`: filetype lookup, loader resolution and
load, the renderer chain, the final `open(result).read()` fallback for an
unconsumed reference, then the postprocessors.  The outer `Option` is
`none` when the `_find_renderers` loop does not terminate. -/
def render (env : RenderEnv) (path : String) (applyPostprocessors : Bool) :
    Option (Except PyErr String) :=
  match findFiletype env.filetypes path with
  | none => some (.error .templateNotFound)
  | some filetype =>
    match findLoader env.loaders path with
    | .error e => some (.error e)
    | .ok ld =>
      match ld.load path with
      | .error e => some (.error e)
      | .ok r =>
        match findRenderers env.engines path with
        | none => none
        | some chain =>
          let st : Bool × String := match r with
            | .file location => (true, location)
            | .inline contents => (false, contents)
          let st := applyChain env path chain st.1 st.2
          let result := if st.1 then env.readFile st.2 else st.2
          let result :=
            if applyPostprocessors then
              filetype.postprocessors.foldl
                (fun acc p => env.postproc p acc) result
            else result
          some (.ok result)

/-- A renderer instance in the `_renderers` cache, keyed by engine id and
filetype mimetype.  `received` records every global-variable definition
the core ever pushed to this instance (the core never pushes any: the
`Renderer` base class has no such channel). -/
structure RendererInst where
  engine : String
  filetype : String
  received : List VariableDefinition
deriving DecidableEq, Repr

/-- The state touched by `ConfiguredTplModule.define_global`: the
filetypes and the instantiated renderers. -/
structure GlobalsState where
  filetypes : List FileType
  renderers : List RendererInst
deriving DecidableEq, Repr

/-- Embeds `self.filetypes[mimetype]` with `FileTypes.__missing__`: return the
existing filetype or create and append a fresh one. -/
def getOrCreateFiletype (fts : List FileType) (mimetype : String) :
    FileType × List FileType :=
  match fts.find? (fun f => f.mimetype = mimetype) with
  | some f => (f, fts)
  | none => (FileType.new mimetype, fts ++ [FileType.new mimetype])

/-- Embeds `ConfiguredTplModule.define_global`: delegate to
`FileType.add_global` on the (lazily created) filetype of the mimetype.
Nothing else is touched; in particular no renderer instance is. -/
def defineGlobal (st : GlobalsState) (mimetype name value : String)
    (escape : Bool) : Except PyErr GlobalsState :=
  let (ft, fts) := getOrCreateFiletype st.filetypes mimetype
  match ft.addGlobal name value escape with
  | .error e => .error e
  | .ok ft2 =>
    let fts2 := fts.map (fun f => if f.mimetype = mimetype then ft2 else f)
    .ok { st with filetypes := fts2 }


/-! ## Concrete configurations used by the theorems below -/

/-- The post-finalize engine registry of a configuration with engines for
`tpl` and `xml` (both keys have length 3, so the descending-length sort
keeps their insertion order). -/
def c1Engines : List (String × String) :=
  [("tpl", "tplE"), ("xml", "xmlE")]

/-- A configuration in which two distinct filetypes both declare the
extension `tpl`. -/
def c2State : TplState :=
  { rootdirs := []
    filetypes := [{ FileType.new "text/plain" with extensions := ["tpl"] },
                  { FileType.new "text/css" with extensions := ["tpl"] }]
    loaders := []
    engines := []
    enginesGuarded := true }

/-- A well-formed configuration: one filetype `text/plain` owning `tpl`,
one loader entry and one engine for `tpl`. -/
def c3State : TplState :=
  { rootdirs := ["/r"]
    filetypes := [{ FileType.new "text/plain" with extensions := ["tpl"] }]
    loaders := [("tpl", ["fs:tpl"])]
    engines := [("tpl", "E")]
    enginesGuarded := true }

/-- The state `_finalize` leaves behind on `c3State`. -/
def c3Post : TplState :=
  match tplFinalize c3State with
  | .ok st => st
  | .error _ => c3State

/-- The `text/plain` filetype as it exists after `_finalize` ran on
`c3State` (its `finalized` flag was never set). -/
def c3Ft : FileType :=
  { FileType.new "text/plain" with extensions := ["tpl"] }

/-- A loader that can serve any path with inline contents `A`. -/
def okLoader : Loader :=
  { load := fun _ => .ok (.inline "A")
    hashImpl := fun _ => .ok "hA"
    isValid := fun _ => true }

/-- A loader that raises `TemplateNotFound` for every path. -/
def failingLoader : Loader :=
  { load := fun _ => .error .templateNotFound
    hashImpl := fun _ => .error .templateNotFound
    isValid := fun _ => false }

/-- Loader registry for the `report.2024.csv` scenario: one key `csv`
whose list holds an invalid loader before a valid one. -/
def c5Loaders : List (String × List Loader) :=
  [("csv", [failingLoader, okLoader])]

/-- A file system for the traversal scenario: the root `/` and the
configured root directory `/r` exist (as any parent of a root directory
does). -/
def c7fs : List String → Bool :=
  fun p => p = [] || p = ["r"]

/-- Environment for the `render('empty.tpl')` scenario: the file exists
(the `tpl` loader serves it), but no filetype declares the extension
`tpl`. -/
def c4Env : RenderEnv :=
  { filetypes := [{ FileType.new "text/css" with extensions := ["css"] }]
    loaders := [("tpl", [okLoader])]
    engines := []
    renderFileF := fun _ f _ => f
    renderStringF := fun _ s _ => s
    readFile := fun _ => ""
    postproc := fun _ c => c }

/-- A module state with one filetype `text/plain` and one renderer
instance already instantiated for it (and no definition ever pushed to
that instance). -/
def c8State : GlobalsState :=
  { filetypes := [c3Ft]
    renderers := [⟨"E", "text/plain", []⟩] }

/-- The state `define_global('text/plain', 'x', 'v', True)` produces from
`c8State`. -/
def c8Post : GlobalsState :=
  match defineGlobal c8State "text/plain" "x" "v" true with
  | .ok st => st
  | .error _ => c8State

/-- A digest usable in witnesses: the printed byte list (injective, so it
separates any two distinct byte strings). -/
def reprDigest (b : List Nat) : String :=
  toString b

/-- A loader function serving one file reference `/r/a.tpl`. -/
def c9LoadFile : String → Except PyErr LoadResult :=
  fun p => if p = "a.tpl" then .ok (.file "/r/a.tpl") else .error .templateNotFound

/-- File-system bytes before the content change. -/
def c9Fs1 : String → Option (List Nat) :=
  fun p => if p = "/r/a.tpl" then some [97, 10] else none

/-- File-system bytes after the content change. -/
def c9Fs2 : String → Option (List Nat) :=
  fun p => if p = "/r/a.tpl" then some [98, 10] else none

/-! ## Claim theorems -/

/-- C1: false on the code.  With engines registered for `tpl` and `xml`
and the path `path/to/file.tpl.xml`, `_find_renderers` selects the
right-most suffix `xml` but then truncates with
`filename[:len('xml') + 1] = 'file'` instead of the prefix before the
occurrence (`filename[:idx] = 'file.tpl'`), so the `tpl` suffix is lost
and the chain holds a single renderer instead of the claimed two.  The
spec-modelled loop (truncating at the occurrence) produces the claimed
two-element chain `xml` then `tpl`. -/
theorem find_renderers_drops_inner_suffix :
    findRenderers c1Engines "path/to/file.tpl.xml" = some ["xmlE"] ∧
    findRenderersSpec c1Engines "path/to/file.tpl.xml" =
      some ["xmlE", "tplE"] := by
  exact ⟨by decide, by decide⟩

/-- C2: the duplicate-extension check of `_finalize` does fail and never
silently picks a filetype, but it raises `AttributeError`, not the
`ConfigurationError` the claim (and the `raise` statement in the source)
intends: the error message is built with
`[f for f in self.filetypes if extension in f.extensions.extensions]`,
which evaluates `.extensions` on the dict's *string* keys. -/
theorem finalize_duplicate_extension_attribute_error :
    tplFinalize c2State = .error .attributeError := by
  rfl

/-- C3: false on the code — registration state stays mutable after
`_finalize`.  On a well-formed configuration `_finalize` succeeds, but it
never calls `FileType._finalize` (no caller of that method exists), so
the filetype's `finalized` flag is still unset and appending an
extension or postprocessor, setting the escape callback and `add_global`
all succeed; and since `_finalize` rebuilt `self.engines` as a plain
`OrderedDict`, registering a new engine extension succeeds as well. -/
theorem mutation_after_finalize_succeeds :
    tplFinalize c3State = .ok c3Post ∧
    c3Post.filetypes = [c3Ft] ∧
    c3Ft.finalized = false ∧
    c3Ft.appendExtension "txt" =
      .ok { c3Ft with extensions := ["tpl", "txt"] } ∧
    c3Ft.appendPostprocessor "pp" =
      .ok { c3Ft with postprocessors := ["pp"] } ∧
    c3Ft.setEscape "esc" = .ok { c3Ft with escape := some "esc" } ∧
    c3Ft.addGlobal "x" "v" true =
      .ok { c3Ft with globals := [⟨"x", "v", true⟩] } ∧
    enginesSetItem c3Post "txt" "E2" =
      .ok { c3Post with engines := [("tpl", "E"), ("txt", "E2")] } := by
  refine ⟨rfl, by decide, by decide, rfl, rfl, rfl, rfl, rfl⟩

/-- C6: `ChainLoader.load` does try the children in order, return the
first success and raise `TemplateNotFound` when every child fails — but
`ChainLoader.hash` falls off the end of its loop without a `raise`, so
when every child fails it returns Python `None` (a silent non-result)
instead of raising `TemplateNotFound` as the claim states. -/
theorem chain_hash_silently_returns_none :
    chainLoad [failingLoader, okLoader] "x" = .ok (.inline "A") ∧
    chainHash [failingLoader, okLoader] "x" = .ok (some "hA") ∧
    chainLoad [failingLoader, failingLoader] "x" =
      .error .templateNotFound ∧
    chainHash [failingLoader, failingLoader] "x" = .ok none := by
  exact ⟨rfl, rfl, rfl, rfl⟩

/-- C7: false on the code.  The traversal guard
`relpath.startswith(os.pardir + os.sep)` misses the case where the
relative path is exactly `..`: for the requested path `..` against root
directory `/r`, the relative path is `..` (no trailing separator), the
guard does not trigger, `os.path.exists('/r/..')` holds (it is `/`), and
`_find_file` serves the path — `load` succeeds and `is_valid` is true
although the resolution (`normAbs`) of the served path lies outside the
root directory. -/
theorem parent_traversal_served :
    findFile c7fs ["/r"] ".." = some ["", "r", ".."] ∧
    fsLoad c7fs ["/r"] ".." = .ok (true, ["", "r", ".."]) ∧
    fsIsValid c7fs ["/r"] ".." = true ∧
    normAbs ["", "r", ".."] = [] ∧
    (normAbs (pathParts "/r")).isPrefixOf (normAbs ["", "r", ".."]) =
      false := by
  exact ⟨rfl, rfl, rfl, by decide, by decide⟩

/-- Membership in the deduplicated stream: exactly the candidates that
were not already in `found`. -/
theorem mem_dedupFirst (p : String) :
    ∀ (cands found : List String),
      p ∈ dedupFirst cands found ↔ (p ∈ cands ∧ p ∉ found) := by
  intro cands
  induction cands with
  | nil => intro found; simp [dedupFirst]
  | cons c cs ih =>
    intro found
    cases hb : found.contains c with
    | true =>
      have hc : c ∈ found := by simpa using hb
      simp only [dedupFirst, hb]
      rw [if_pos trivial, ih]
      constructor
      · rintro ⟨h1, h2⟩
        exact ⟨List.mem_cons_of_mem _ h1, h2⟩
      · rintro ⟨h1, h2⟩
        rcases List.mem_cons.mp h1 with rfl | h1
        · exact absurd hc h2
        · exact ⟨h1, h2⟩
    | false =>
      have hc : c ∉ found := by simpa using hb
      simp only [dedupFirst, hb]
      rw [if_neg Bool.false_ne_true, List.mem_cons, ih]
      constructor
      · rintro (rfl | ⟨h1, h2⟩)
        · exact ⟨List.mem_cons_self _ _, hc⟩
        · refine ⟨List.mem_cons_of_mem _ h1, fun hf => h2 ?_⟩
          exact List.mem_append_left _ hf
      · rintro ⟨h1, h2⟩
        by_cases hpc : p = c
        · exact Or.inl hpc
        · have h1' : p ∈ cs := by
            rcases List.mem_cons.mp h1 with h | h
            · exact absurd h hpc
            · exact h
          refine Or.inr ⟨h1', fun hf => ?_⟩
          rcases List.mem_append.mp hf with hf | hf
          · exact h2 hf
          · exact hpc (List.mem_singleton.mp hf)

/-- The deduplicated stream has no duplicates, no matter the starting
`found` list. -/
theorem dedupFirst_nodup :
    ∀ (cands found : List String), (dedupFirst cands found).Nodup := by
  intro cands
  induction cands with
  | nil => intro found; simp [dedupFirst]
  | cons c cs ih =>
    intro found
    cases hb : found.contains c with
    | true =>
      simp only [dedupFirst, hb]
      rw [if_pos trivial]
      exact ih found
    | false =>
      simp only [dedupFirst, hb]
      rw [if_neg Bool.false_ne_true]
      refine List.nodup_cons.mpr ⟨fun hmem => ?_, ih (found ++ [c])⟩
      have := (mem_dedupFirst c cs (found ++ [c])).mp hmem
      exact this.2 (List.mem_append_right _ (List.mem_singleton.mpr rfl))

/-- C10: `FileSystemLoader.iter_paths` enumerates each relative path at
most once — the `found` bookkeeping makes the emitted sequence
duplicate-free — while still emitting every path that any root's walk
produces (so a file present under several roots appears exactly once, at
its first occurrence). -/
theorem iter_paths_duplicate_free (walks : List (List (String × String)))
    (extension : String) :
    (fsIterPaths walks extension).Nodup ∧
    ∀ p, p ∈ fsIterPaths walks extension ↔
      p ∈ iterCandidates walks extension := by
  constructor
  · exact dedupFirst_nodup _ []
  · intro p
    rw [fsIterPaths, mem_dedupFirst]
    simp

/-- Witness for C10 at a concrete input: a path present under both roots
is enumerated (once). -/
theorem iter_paths_duplicate_free_witness :
    "a.tpl" ∈ fsIterPaths [[("", "a.tpl")], [("", "a.tpl")]] "tpl" :=
  (iter_paths_duplicate_free [[("", "a.tpl")], [("", "a.tpl")]] "tpl").2
    "a.tpl" |>.mpr (by decide)

/-- The default `Loader.hash` is the digest of the bytes that
`contentBytes` extracts: the two functions share their control flow. -/
theorem defaultHash_eq_digest_contentBytes
    (fsBytes : String → Option (List Nat)) (digest : List Nat → String)
    (load : String → Except PyErr LoadResult) (path : String) :
    defaultHash fsBytes digest load path =
      (contentBytes fsBytes load path).map digest := by
  unfold defaultHash contentBytes
  split
  · rfl
  · split <;> rfl
  · split <;> rfl

/-- C9: the default `Loader.hash` token is a function of the loaded
content bytes alone — if the bytes a load produces are unchanged (even
across different loaders, file systems or paths) the token is identical,
and whenever the bytes changed in a way the digest function separates,
the token differs (the "overwhelming probability" clause of the claim is
exactly the assumption that `xxh64` separates the two byte strings). -/
theorem hash_token_tracks_content
    (fs1 fs2 : String → Option (List Nat)) (digest : List Nat → String)
    (load1 load2 : String → Except PyErr LoadResult) (p1 p2 : String) :
    (contentBytes fs1 load1 p1 = contentBytes fs2 load2 p2 →
      defaultHash fs1 digest load1 p1 = defaultHash fs2 digest load2 p2) ∧
    (∀ b1 b2, contentBytes fs1 load1 p1 = .ok b1 →
      contentBytes fs2 load2 p2 = .ok b2 → digest b1 ≠ digest b2 →
      defaultHash fs1 digest load1 p1 ≠ defaultHash fs2 digest load2 p2) := by
  constructor
  · intro h
    rw [defaultHash_eq_digest_contentBytes, defaultHash_eq_digest_contentBytes,
      h]
  · intro b1 b2 h1 h2 hd
    rw [defaultHash_eq_digest_contentBytes, defaultHash_eq_digest_contentBytes,
      h1, h2]
    intro hcontra
    exact hd (by simpa [Except.map] using hcontra)

/-- Witness for C9: hashing `a.tpl` before and after a one-byte content
change produces different tokens; hashing it twice against the unchanged
file system produces the same token. -/
theorem hash_token_tracks_content_witness :
    defaultHash c9Fs1 reprDigest c9LoadFile "a.tpl" =
      defaultHash c9Fs1 reprDigest c9LoadFile "a.tpl" ∧
    defaultHash c9Fs1 reprDigest c9LoadFile "a.tpl" ≠
      defaultHash c9Fs2 reprDigest c9LoadFile "a.tpl" := by
  constructor
  · exact
      (hash_token_tracks_content c9Fs1 c9Fs1 reprDigest c9LoadFile c9LoadFile
        "a.tpl" "a.tpl").1 rfl
  · exact
      (hash_token_tracks_content c9Fs1 c9Fs2 reprDigest c9LoadFile c9LoadFile
        "a.tpl" "a.tpl").2 [97, 10] [98, 10] rfl rfl (by decide)

/-- C8 counterexample: on a state with a renderer instance already
instantiated for `text/plain`, `define_global` succeeds and stores the
definition in the filetype's globals, but the cached renderer instance
receives nothing — its list of pushed definitions is still empty — so the
claimed propagation to already-instantiated renderers does not happen. -/
theorem define_global_no_propagation :
    defineGlobal c8State "text/plain" "x" "v" true = .ok c8Post ∧
    c8Post.renderers = c8State.renderers ∧
    c8Post.renderers.map RendererInst.received = [[]] ∧
    c8Post.filetypes.map FileType.globals = [[⟨"x", "v", true⟩]] := by
  exact ⟨rfl, rfl, by decide, by decide⟩

/-- C8 (amended): `define_global` only stores the definition in the
mimetype's `FileType` (creating the filetype when absent); whenever the
call succeeds, the renderer-instance cache is untouched and the
definition is present in the globals of a filetype carrying that
mimetype.  Already-instantiated renderers are not updated through any
channel of the core. -/
theorem define_global_stores_in_filetype
    (st : GlobalsState) (mt n v : String) (e : Bool) (st' : GlobalsState)
    (h : defineGlobal st mt n v e = .ok st') :
    st'.renderers = st.renderers ∧
    ∃ ft, ft ∈ st'.filetypes ∧ ft.mimetype = mt ∧
      (⟨n, v, e⟩ : VariableDefinition) ∈ ft.globals := by
  unfold defineGlobal at h
  rcases hget : getOrCreateFiletype st.filetypes mt with ⟨ft, fts⟩
  rw [hget] at h
  simp only at h
  have hftmt : ft.mimetype = mt := by
    unfold getOrCreateFiletype at hget
    cases hf : st.filetypes.find? (fun f => f.mimetype = mt) with
    | some g =>
      rw [hf] at hget
      cases hget
      simpa using List.find?_some hf
    | none =>
      rw [hf] at hget
      cases hget
      rfl
  have hftmem : ft ∈ fts := by
    unfold getOrCreateFiletype at hget
    cases hf : st.filetypes.find? (fun f => f.mimetype = mt) with
    | some g =>
      rw [hf] at hget
      cases hget
      exact List.mem_of_find?_eq_some hf
    | none =>
      rw [hf] at hget
      cases hget
      exact List.mem_append_right _ (List.mem_singleton.mpr rfl)
  unfold FileType.addGlobal at h
  by_cases hfin : ft.finalized
  · rw [if_pos hfin] at h
    cases h
  · rw [if_neg hfin] at h
    by_cases hdup : ft.globals.any (fun g => g.name = n)
    · rw [if_pos hdup] at h
      cases h
    · rw [if_neg hdup] at h
      cases h
      refine ⟨rfl, { ft with globals := ft.globals ++ [⟨n, v, e⟩] }, ?_, hftmt, ?_⟩
      · refine List.mem_map.mpr ⟨ft, hftmem, ?_⟩
        rw [if_pos hftmt]
      · exact List.mem_append_right _ (List.mem_singleton.mpr rfl)

/-- Witness for C8's amended theorem at the concrete state. -/
theorem define_global_stores_in_filetype_witness :
    c8Post.renderers = c8State.renderers ∧
    ∃ ft, ft ∈ c8Post.filetypes ∧ ft.mimetype = "text/plain" ∧
      (⟨"x", "v", true⟩ : VariableDefinition) ∈ ft.globals :=
  define_global_stores_in_filetype c8State "text/plain" "x" "v" true c8Post
    rfl

/-- The descending loop of `_find_filetype` fails for counter `i` exactly
when no tested join up to `i` components is owned by any filetype. -/
theorem findFiletypeAux_eq_none_iff (fts : List FileType)
    (exts : List String) :
    ∀ i, (findFiletypeAux fts exts i = none ↔
      ∀ j, 1 ≤ j → j ≤ i →
        fts.find? (fun f =>
          f.extensions.contains (pyJoin '.' (exts.take j))) = none) := by
  intro i
  induction i with
  | zero =>
    constructor
    · intro _ j h1 h2
      omega
    · intro _
      rfl
  | succ i ih =>
    cases hf : fts.find? (fun f =>
        f.extensions.contains (pyJoin '.' (exts.take (i + 1)))) with
    | some g =>
      constructor
      · intro hcontra
        rw [findFiletypeAux, hf] at hcontra
        cases hcontra
      · intro hall
        exact absurd (hall (i + 1) (by omega) (Nat.le_refl _))
          (by rw [hf]; intro hx; cases hx)
    | none =>
      rw [findFiletypeAux, hf]
      rw [ih]
      constructor
      · intro hj j h1 h2
        rcases Nat.lt_or_ge j (i + 1) with hlt | hge
        · exact hj j h1 (by omega)
        · have : j = i + 1 := by omega
          rw [this]
          exact hf
      · intro hall j h1 h2
        exact hall j h1 (by omega)

/-- When the descending loop of `_find_filetype` returns a filetype, it
is the first registered filetype owning the longest matching join. -/
theorem findFiletypeAux_eq_some (fts : List FileType) (exts : List String) :
    ∀ i ft, findFiletypeAux fts exts i = some ft →
      ∃ j, 1 ≤ j ∧ j ≤ i ∧
        fts.find? (fun f =>
          f.extensions.contains (pyJoin '.' (exts.take j))) = some ft ∧
        ∀ k, j < k → k ≤ i →
          fts.find? (fun f =>
            f.extensions.contains (pyJoin '.' (exts.take k))) = none := by
  intro i
  induction i with
  | zero =>
    intro ft h
    cases h
  | succ i ih =>
    intro ft h
    cases hf : fts.find? (fun f =>
        f.extensions.contains (pyJoin '.' (exts.take (i + 1)))) with
    | some g =>
      rw [findFiletypeAux, hf] at h
      cases h
      refine ⟨i + 1, by omega, Nat.le_refl _, hf, ?_⟩
      intro k h1 h2
      omega
    | none =>
      rw [findFiletypeAux, hf] at h
      obtain ⟨j, hj1, hj2, hj3, hj4⟩ := ih ft h
      refine ⟨j, hj1, by omega, hj3, ?_⟩
      intro k hk1 hk2
      rcases Nat.lt_or_ge k (i + 1) with hlt | hge
      · exact hj4 k hk1 (by omega)
      · have : k = i + 1 := by omega
        rw [this]
        exact hf

/-- C4: `_find_filetype` splits the basename into its post-stem
components and walks joined prefixes from longest to shortest:

* it raises `TemplateNotFound` (`none`) exactly when no joined prefix of
  the components is contained in any filetype's extension set;
* a returned filetype is the first registered filetype owning the joined
  prefix for the largest matching component count;
* concretely, `render('empty.tpl')` on a configuration whose filetypes do
  not declare `tpl` fails with `TemplateNotFound` although the loader for
  `tpl` serves the file. -/
theorem find_filetype_longest_suffix_walk (fts : List FileType)
    (path : String) :
    (findFiletype fts path = none ↔
      ∀ i, 1 ≤ i → i ≤ (extComponents path).length →
        ∀ ft ∈ fts,
          ft.extensions.contains
            (pyJoin '.' ((extComponents path).take i)) = false) ∧
    (∀ ft, findFiletype fts path = some ft →
      ∃ i, 1 ≤ i ∧ i ≤ (extComponents path).length ∧
        fts.find? (fun f =>
          f.extensions.contains
            (pyJoin '.' ((extComponents path).take i))) = some ft ∧
        ∀ j, i < j → j ≤ (extComponents path).length →
          fts.find? (fun f =>
            f.extensions.contains
              (pyJoin '.' ((extComponents path).take j))) = none) ∧
    render c4Env "empty.tpl" true = some (.error .templateNotFound) := by
  refine ⟨?_, ?_, rfl⟩
  · rw [findFiletype, findFiletypeAux_eq_none_iff]
    constructor
    · intro hall i h1 h2 ft hft
      have := hall i h1 h2
      rw [List.find?_eq_none] at this
      simpa using this ft hft
    · intro hall j h1 h2
      rw [List.find?_eq_none]
      intro f hf
      simpa using hall j h1 h2 f hf
  · intro ft h
    exact findFiletypeAux_eq_some fts (extComponents path)
      (extComponents path).length ft h

/-- Witness for C4 at a concrete input: with no filetypes registered,
`_find_filetype` raises `TemplateNotFound` for `empty.tpl`. -/
theorem find_filetype_longest_suffix_walk_witness :
    findFiletype [] "empty.tpl" = none :=
  (find_filetype_longest_suffix_walk [] "empty.tpl").1.mpr
    (fun _ _ _ ft hft => absurd hft (List.not_mem_nil ft))

/-- The folding loop of `_find_loader` tests the joins of ever-shorter
suffixes of the rest components (dropping one leading component per
iteration) and returns the first one that is a registered loader key. -/
theorem whileFoldKey_eq_suffix_find (loaders : List (String × List Loader)) :
    ∀ (a : String) (rest : List String),
      whileFoldKey loaders (a :: rest) =
        (suffixJoins rest).find? (isLoaderKey loaders) := by
  intro a rest
  induction rest generalizing a with
  | nil => rfl
  | cons b cs ih =>
    rw [whileFoldKey, suffixJoins, List.find?]
    cases h : isLoaderKey loaders (pyJoin '.' (b :: cs)) with
    | true => rfl
    | false =>
      rw [if_neg Bool.false_ne_true]
      exact ih b

/-- Reduction of `_find_loader` once the basename is known to split into
a stem plus at least one further component. -/
theorem findLoader_eq_of_split (loaders : List (String × List Loader))
    (path stem b : String) (cs : List String)
    (h : pySplit '.' (basename path) = stem :: b :: cs) :
    findLoader loaders path =
      (match (if isLoaderKey loaders (pyJoin '.' (b :: cs)) then
                some (pyJoin '.' (b :: cs))
              else whileFoldKey loaders (b :: cs)) with
       | none => .error .templateNotFound
       | some k =>
         match ((loaders.lookup k).getD []).find?
             (fun l => l.isValid path) with
         | some l => .ok l
         | none => .error .templateNotFound) := by
  unfold findLoader
  rw [h]

/-- C5: `_find_loader` on `report.2024.csv` with a registered key `csv`
and no key `2024.csv` folds the component `2024` back into the stem,
matches the key `csv` and returns the first loader of that key's list
that validates the path; it raises `TemplateNotFound` for this path
exactly when no loader in the `csv` list validates it.  In general the
folding loop walks the joins of ever-shorter suffixes of the rest
components and stops at the first registered key (`none` when no dots
remain without a match). -/
theorem find_loader_folds_components (loaders : List (String × List Loader))
    (ls : List Loader)
    (h1 : loaders.lookup "2024.csv" = none)
    (h2 : loaders.lookup "csv" = some ls) :
    findLoader loaders "report.2024.csv" =
      (match ls.find? (fun l => l.isValid "report.2024.csv") with
       | some l => .ok l
       | none => .error .templateNotFound) ∧
    (findLoader loaders "report.2024.csv" = .error .templateNotFound ↔
      ∀ l ∈ ls, l.isValid "report.2024.csv" = false) ∧
    (∀ (lds : List (String × List Loader)) (a : String) (rest : List String),
      whileFoldKey lds (a :: rest) =
        (suffixJoins rest).find? (isLoaderKey lds)) := by
  have hsplit : pySplit '.' (basename "report.2024.csv") =
      ["report", "2024", "csv"] := by decide
  have hmain : findLoader loaders "report.2024.csv" =
      (match ls.find? (fun l => l.isValid "report.2024.csv") with
       | some l => .ok l
       | none => .error .templateNotFound) := by
    rw [findLoader_eq_of_split loaders "report.2024.csv" "report" "2024"
      ["csv"] hsplit]
    have hr1 : pyJoin '.' ("2024" :: ["csv"]) = "2024.csv" := by decide
    have hk1 : isLoaderKey loaders "2024.csv" = false := by
      rw [isLoaderKey, h1]
      rfl
    rw [hr1, hk1, if_neg Bool.false_ne_true, whileFoldKey]
    have hr2 : pyJoin '.' ("csv" :: ([] : List String)) = "csv" := by decide
    have hk2 : isLoaderKey loaders "csv" = true := by
      rw [isLoaderKey, h2]
      rfl
    rw [hr2, hk2, if_pos rfl]
    show (match ((loaders.lookup "csv").getD []).find?
            (fun l => l.isValid "report.2024.csv") with
          | some l => Except.ok l
          | none => Except.error PyErr.templateNotFound) = _
    rw [h2, Option.getD_some]
  refine ⟨hmain, ?_, whileFoldKey_eq_suffix_find⟩
  constructor
  · intro herr l hl
    cases hfind : ls.find? (fun l => l.isValid "report.2024.csv") with
    | some g =>
      rw [hmain, hfind] at herr
      exact Except.noConfusion herr
    | none =>
      have := List.find?_eq_none.mp hfind l hl
      simpa using this
  · intro hall
    rw [hmain]
    have hfind : ls.find? (fun l => l.isValid "report.2024.csv") = none := by
      rw [List.find?_eq_none]
      intro l hl
      simpa using hall l hl
    rw [hfind]

/-- Witness for C5 at a concrete registry: the `csv` key's list holds an
invalid loader followed by a valid one, and the valid one is returned. -/
theorem find_loader_folds_components_witness :
    findLoader c5Loaders "report.2024.csv" = .ok okLoader := by
  have h := (find_loader_folds_components c5Loaders [failingLoader, okLoader]
    rfl rfl).1
  rw [h]
  rfl
